import Mathlib

/-!
Shallow embedding of the DASHBOARDOLDA order-management dashboard.

Part 1 — the order status editor
(src/src/components/orders/order-detail.tsx, `OrderDetail` / `saveStatus`).

Part 2 — the PRT request queue panel
(src/unnamed/part_003, `PRTRequestPanel`).

Part 3 — the per-order todo list
(src/unnamed/part_002, `useTodos` inside `TshirtOrderCard`).
-/

namespace Dashboard

/-! ### Order status enumerations (src/src/components/orders/order-detail.tsx) -/

/-- The eleven fulfillment stages of `OrderStatus`, exactly the keys of
`orderStatusConfig` and the values offered by the status `Select`. -/
inductive OrderStatus
  | COMMANDE_A_TRAITER
  | COMMANDE_EN_ATTENTE
  | COMMANDE_A_PREPARER
  | MAQUETTE_A_FAIRE
  | PRT_A_FAIRE
  | EN_ATTENTE_VALIDATION
  | EN_COURS_IMPRESSION
  | PRESSAGE_A_FAIRE
  | CLIENT_A_CONTACTER
  | CLIENT_PREVENU
  | ARCHIVES
  deriving DecidableEq

/-- The four payment states of `PaymentStatus`. -/
inductive PaymentStatus
  | PENDING
  | PAID
  | FAILED
  | REFUNDED
  deriving DecidableEq

/-- The fields of an `Order` that the status editor reads or writes.
Monetary, customer and line-item fields are carried opaquely elsewhere in
the component and play no role in `saveStatus`. -/
structure Order where
  id : String
  orderNumber : String
  status : OrderStatus
  paymentStatus : PaymentStatus
  notes : Option String
  deriving DecidableEq

/-- The PATCH body built in `saveStatus`:
`JSON.stringify({ status: newStatus, paymentStatus: newPayment })`.
`notes` is `Option String` so that the absence of a `notes` key in the
serialized body is representable (`none`). -/
structure UpdatePayload where
  status : OrderStatus
  paymentStatus : PaymentStatus
  notes : Option String
  deriving DecidableEq

/-- Local view state of `OrderDetail`: the committed `order` (held in a
`useState`, replaced by `setOrder`), the two dirty flags, and the two
draft select values. `order` is `Option Order` because `setOrder(data.order)`
stores whatever the response body carried, including `undefined` (`none`).
The transient `saving` flag is omitted: it is set `true` then reset in the
`finally` block, so every complete run leaves it `false`. -/
structure EditorState where
  order : Option Order
  editingStatus : Bool
  editingPayment : Bool
  newStatus : OrderStatus
  newPayment : PaymentStatus
  deriving DecidableEq

/-- A parsed response body as `saveStatus` sees it after `await res.json()`:
`ok` is the `Response.ok` flag of the fetch result (the code never reads
it), and `order` is the body's `order` field (`none` when absent). -/
structure ResponseBody where
  ok : Bool
  order : Option Order
  deriving DecidableEq

/-- Outcome of the `fetch` + `res.json()` pair inside `saveStatus`'s `try`
block: either an exception was thrown (network failure or unparseable
body), or a body was obtained. -/
inductive FetchResult
  | thrown
  | replied (body : ResponseBody)
  deriving DecidableEq

/-- A toast raised via `sonner`: non-blocking, success or error flavour. -/
inductive Toast
  | success (msg : String)
  | error (msg : String)
  deriving DecidableEq

/-- The request payload `saveStatus` submits, built from the two draft
values only — the source serializes exactly
`{ status: newStatus, paymentStatus: newPayment }`, so the `notes` key is
never present. -/
def saveStatusPayload (st : EditorState) : UpdatePayload :=
  { status := st.newStatus, paymentStatus := st.newPayment, notes := none }

/-- State transition of `saveStatus` given the outcome of the network call.
On the `try` path: `setOrder(data.order)`, clear both editing flags, raise
the success toast. On the `catch` path: raise the error toast and change
nothing. -/
def saveStatus (st : EditorState) (result : FetchResult) : EditorState × Toast :=
  match result with
  | .thrown => (st, .error "Erreur lors de la mise à jour")
  | .replied body =>
      ({ st with order := body.order, editingStatus := false, editingPayment := false },
       .success "Statut mis à jour avec succès")

/-! ### Concrete fixtures for the editor -/

/-- A displayed order sitting at the initial intake stage. -/
def oEx : Order :=
  { id := "o1", orderNumber := "MAN-1700000000000",
    status := .COMMANDE_A_TRAITER, paymentStatus := .PENDING,
    notes := some "fragile" }

/-- The same order as echoed back archived. -/
def oExArchived : Order :=
  { id := "o1", orderNumber := "MAN-1700000000000",
    status := .ARCHIVES, paymentStatus := .PENDING,
    notes := some "fragile" }

/-- Editor state where the draft fulfillment status (`ARCHIVES`) differs
from the displayed one (`COMMANDE_A_TRAITER`) and payment is untouched. -/
def stEx : EditorState :=
  { order := some oEx, editingStatus := true, editingPayment := false,
    newStatus := .ARCHIVES, newPayment := .PENDING }

/-- A server reply whose `ok` flag is `false` (HTTP error status) but whose
JSON body still parses and carries an `order` field. -/
def bodyErr : ResponseBody := { ok := false, order := some oExArchived }

/-! ### PRT request queue (src/unnamed/part_003, `PRTRequestPanel`) -/

/-- JS `String.prototype.trim` on a character list: strip whitespace from
both ends. -/
def trimChars (l : List Char) : List Char :=
  ((l.dropWhile Char.isWhitespace).reverse.dropWhile Char.isWhitespace).reverse

/-- Model of JS `s.trim()` (both `size.trim()` / `color.trim()` in
`handleSend` and `text.trim()` in `addTodo`). -/
def jsTrim (s : String) : String := ⟨trimChars s.data⟩

/-- Lowercasing as JS `toLowerCase` behaves on the characters that can
influence the comparisons against `"loic"` / `"loïc"`: ASCII letters via
`Char.toLower`, plus the accented capital `Ï ↦ ï`. -/
def jsCharToLower (c : Char) : Char :=
  if c = 'Ï' then 'ï' else c.toLower

/-- Model of `activeUser.toLowerCase()`, mapped over the character list. -/
def jsToLower (s : String) : String := ⟨s.data.map jsCharToLower⟩

/-- `const isLoic = activeUser.toLowerCase() === "loic" || activeUser.toLowerCase() === "loïc"` -/
def isLoic (activeUser : String) : Bool :=
  jsToLower activeUser == "loic" || jsToLower activeUser == "loïc"

/-- `type PRTStatus = "nouveau" | "vu" | "traite"` -/
inductive PRTStatus
  | nouveau
  | vu
  | traite
  deriving DecidableEq

/-- A queue entry (`interface PRTRequest`). `quantity` is a JS number,
modelled as a rational; `fromUser` embeds the source field `from` (a Lean
keyword); `createdAt` is the ISO timestamp string. -/
structure PRTRequest where
  id : String
  category : String
  size : String
  quantity : ℚ
  color : String
  fromUser : String
  createdAt : String
  status : PRTStatus
  deriving DecidableEq

/-- `const CATEGORIES = [...]` of the panel's category select. -/
def CATEGORIES : List String :=
  ["T-shirt", "Polo", "Sweat", "Casquette", "Sac", "Accessoire", "Autre"]

/-- The in-memory component state of `PRTRequestPanel`: the `requests`
list plus the five form fields. The transient `sent` flag is cleared again
by a 2.2 s timer, which is outside this state-function model. -/
structure PanelState where
  requests : List PRTRequest
  category : String
  size : String
  quantity : ℚ
  color : String
  sent : Bool
  deriving DecidableEq

/-- The browser's localStorage value at `STORAGE_KEY = "prt_requests_v1"`,
as the decoded list (`saveRequests` overwrites it with the full list). -/
structure Store where
  prtRequests : List PRTRequest
  deriving DecidableEq

/-- `handleSend`: reject (return the state and store untouched) when the
trimmed size or trimmed color is empty; otherwise build the new request
(fresh id and timestamp passed in, status `nouveau`, trimmed fields),
`persist([req, ...requests])` — which sets the component list and
overwrites the stored list with that same full list — and reset the form
fields (`CATEGORIES[0]`, empty size/color, quantity 1) with the `sent`
flash raised. -/
def handleSend (activeUser freshId now : String) (st : PanelState) (store : Store) :
    PanelState × Store :=
  if jsTrim st.size = "" ∨ jsTrim st.color = "" then (st, store)
  else
    let req : PRTRequest :=
      { id := freshId, category := st.category, size := jsTrim st.size,
        quantity := st.quantity, color := jsTrim st.color,
        fromUser := activeUser, createdAt := now, status := .nouveau }
    ({ st with requests := req :: st.requests,
               category := CATEGORIES.get ⟨0, by decide⟩,
               size := "", quantity := 1, color := "", sent := true },
     { prtRequests := req :: st.requests })

/-- `markVu`: `requests.map(r => r.id === id ? { ...r, status: "vu" } : r)`. -/
def markVu (id : String) (requests : List PRTRequest) : List PRTRequest :=
  requests.map fun r => if r.id = id then { r with status := .vu } else r

/-- `markTraite`: `requests.map(r => r.id === id ? { ...r, status: "traite" } : r)`. -/
def markTraite (id : String) (requests : List PRTRequest) : List PRTRequest :=
  requests.map fun r => if r.id = id then { r with status := .traite } else r

/-- `deleteReq`: `requests.filter(r => r.id !== id)`. -/
def deleteReq (id : String) (requests : List PRTRequest) : List PRTRequest :=
  requests.filter fun r => r.id ≠ id

/-- `clearTraited`: `requests.filter(r => r.status !== "traite")`. -/
def clearTraited (requests : List PRTRequest) : List PRTRequest :=
  requests.filter fun r => r.status ≠ .traite

/-- The rendering gate of the per-entry delete button:
`(isLoic || req.from === activeUser) && <button onClick={() => deleteReq(req.id)}>`. -/
def deleteAllowed (activeUser : String) (r : PRTRequest) : Bool :=
  isLoic activeUser || r.fromUser == activeUser

/-- Clicking the delete control of entry `r`: only reachable when the gate
renders the button, in which case it runs `deleteReq(r.id)`; otherwise the
queue is untouched. -/
def clickDelete (activeUser : String) (r : PRTRequest) (requests : List PRTRequest) :
    List PRTRequest :=
  if deleteAllowed activeUser r then deleteReq r.id requests else requests

/-- Position of each status along the `nouveau → vu → traite` progression. -/
def statusRank : PRTStatus → ℕ
  | .nouveau => 0
  | .vu => 1
  | .traite => 2

/-- The quantity input's value as `handleSend` receives it: the browser
exposes `e.target.value` of a `type="number"` input as either the empty
string (no valid number entered — `Number("") = 0`) or a decimal numeral,
modelled as `Option ℚ`; the handler stores `Math.max(1, Number(value))`. -/
def jsNumberOfInput : Option ℚ → ℚ
  | none => 0
  | some q => q

/-- `onChange={e => setQuantity(Math.max(1, Number(e.target.value)))}`. -/
def quantityOnChange (v : Option ℚ) : ℚ := max 1 (jsNumberOfInput v)

/-! ### Per-order todo list (src/unnamed/part_002, `useTodos`) -/

/-- `interface CardTodo { id, text, done }`. -/
structure CardTodo where
  id : String
  text : String
  done : Bool
  deriving DecidableEq

/-- State of one order's todo hook: the `todos` component state and the
decoded localStorage value at `olda-todos-<orderId>`. -/
structure TodoState where
  todos : List CardTodo
  stored : List CardTodo
  deriving DecidableEq

/-- `save(updated)`: `setTodos(updated)` then
`localStorage.setItem(key, JSON.stringify(updated))` (write failures are
swallowed; the successful-write case is modelled). -/
def save (updated : List CardTodo) (_st : TodoState) : TodoState :=
  { todos := updated, stored := updated }

/-- `addTodo(text)`: early return when `text.trim()` is falsy (empty after
trimming); else `save([...todos, { id: crypto.randomUUID(), text: text.trim(), done: false }])`
with the fresh id passed in. -/
def addTodo (freshId : String) (text : String) (st : TodoState) : TodoState :=
  if jsTrim text = "" then st
  else save (st.todos ++ [{ id := freshId, text := jsTrim text, done := false }]) st

/-! ### Concrete fixtures for the PRT queue -/

/-- The spec's example submission, by Alex on a fresh panel. -/
def stAlex : PanelState :=
  { requests := [], category := "T-shirt", size := "L", quantity := 3,
    color := "Noir", sent := false }

/-- A queue entry already marked done (`traite`). -/
def rDoneEx : PRTRequest :=
  { id := "prt1a", category := "T-shirt", size := "L", quantity := 1,
    color := "Noir", fromUser := "Alex", createdAt := "2026-01-01T10:00:00.000Z",
    status := .traite }

/-- A fresh (`nouveau`) queue entry submitted by Alex. -/
def rNewEx : PRTRequest :=
  { id := "prt2b", category := "Polo", size := "XL", quantity := 2,
    color := "Blanc", fromUser := "Alex", createdAt := "2026-01-02T09:30:00.000Z",
    status := .nouveau }

/-- Panel state after the user types `2.5` into the quantity input: the
handler stored `Math.max(1, Number("2.5"))`. -/
def stHalf : PanelState :=
  { requests := [], category := "T-shirt", size := "L",
    quantity := quantityOnChange (some (5/2)), color := "Noir", sent := false }

/-- The entry `handleSend` builds from `stHalf` with fresh id `prt9`. -/
def reqHalf : PRTRequest :=
  { id := "prt9", category := "T-shirt", size := "L",
    quantity := quantityOnChange (some (5/2)), color := "Noir",
    fromUser := "Alex", createdAt := "2026-01-04T12:00:00.000Z",
    status := .nouveau }

/-- If an entry already carries status `s`, rebuilding it with status `s`
is the identity (the JS spread `{ ...r, status }` at the value level). -/
theorem setStatus_self (r : PRTRequest) (s : PRTStatus) (h : r.status = s) :
    { r with status := s } = r := by
  cases r
  cases h
  rfl

/-- Claim C1 (counterexample): a save whose draft fulfillment status
(`ARCHIVES`) differs from the displayed one (`COMMANDE_A_TRAITER`)
nevertheless submits a payload with no `notes` key at all — no audit line
is generated. -/
theorem payload_omits_notes_on_status_change :
    stEx.order = some oEx ∧
    some stEx.newStatus ≠ (stEx.order.map Order.status) ∧
    (saveStatusPayload stEx).notes = none := by
  exact ⟨rfl, by decide, rfl⟩

/-- Claim C1 (amended): for every save, the submitted payload carries
exactly the two draft status fields and never a `notes` field; after a
successful save the displayed order is the server-echoed object, not the
local draft. -/
theorem saveStatusPayload_fields (st : EditorState) (body : ResponseBody) :
    (saveStatusPayload st).status = st.newStatus ∧
    (saveStatusPayload st).paymentStatus = st.newPayment ∧
    (saveStatusPayload st).notes = none ∧
    (saveStatus st (.replied body)).1.order = body.order :=
  ⟨rfl, rfl, rfl, rfl⟩

/-- Claim C7 (counterexample): a reply whose `ok` flag is `false` (the
server did not confirm a successful update) still replaces the displayed
committed order with the body's `order` field and raises the success
toast — the code never reads `Response.ok`. -/
theorem saveStatus_adopts_error_reply :
    bodyErr.ok = false ∧
    (saveStatus stEx (.replied bodyErr)).1.order ≠ stEx.order ∧
    (saveStatus stEx (.replied bodyErr)).2 = .success "Statut mis à jour avec succès" :=
  ⟨rfl, by decide, rfl⟩

/-- Claim C7 (amended): when the fetch or body parse throws, an error
toast is surfaced and the whole editor state — committed order, drafts and
editing flags — is untouched; any reply with a parseable body, regardless
of its `ok` flag, takes the success path: the displayed order becomes the
body's `order` field, the drafts are kept, the editing flags clear, and a
success toast is raised. -/
theorem saveStatus_thrown_vs_reply (st : EditorState) (body : ResponseBody) :
    ((saveStatus st .thrown).1 = st ∧
     (saveStatus st .thrown).2 = .error "Erreur lors de la mise à jour") ∧
    ((saveStatus st (.replied body)).1.order = body.order ∧
     (saveStatus st (.replied body)).1.newStatus = st.newStatus ∧
     (saveStatus st (.replied body)).1.newPayment = st.newPayment ∧
     (saveStatus st (.replied body)).1.editingStatus = false ∧
     (saveStatus st (.replied body)).1.editingPayment = false ∧
     (saveStatus st (.replied body)).2 = .success "Statut mis à jour avec succès") :=
  ⟨⟨rfl, rfl⟩, rfl, rfl, rfl, rfl, rfl, rfl⟩

/-- Claim C2: submitting with a size or color that is empty after trimming
is a complete no-op — the component state (hence the request queue) and
the stored list are both left unchanged. -/
theorem handleSend_rejects_blank (activeUser freshId now : String)
    (st : PanelState) (store : Store)
    (h : jsTrim st.size = "" ∨ jsTrim st.color = "") :
    handleSend activeUser freshId now st store = (st, store) := by
  unfold handleSend
  exact if_pos h

/-- Claim C2 (witness): a whitespace-only size is rejected over a
one-entry queue. -/
theorem handleSend_rejects_blank_witness :
    handleSend "Alex" "prtW2" "2026-01-03T08:00:00.000Z"
        { stAlex with size := "   " } ⟨[rDoneEx]⟩ =
      ({ stAlex with size := "   " }, ⟨[rDoneEx]⟩) :=
  handleSend_rejects_blank "Alex" "prtW2" "2026-01-03T08:00:00.000Z"
    { stAlex with size := "   " } ⟨[rDoneEx]⟩ (Or.inl (by decide))

/-- Claim C3: a valid submission prepends exactly one entry at the head of
both the component queue and the stored queue, with status `nouveau`, the
submitted category and quantity, trimmed size and color, and the acting
user as submitter; the tail is the old queue, so all pre-existing entries
are preserved in order. -/
theorem handleSend_prepends_new_entry (activeUser freshId now : String)
    (st : PanelState) (store : Store)
    (h1 : jsTrim st.size ≠ "") (h2 : jsTrim st.color ≠ "") :
    ∃ req : PRTRequest,
      (handleSend activeUser freshId now st store).1.requests = req :: st.requests ∧
      (handleSend activeUser freshId now st store).2.prtRequests = req :: st.requests ∧
      req.status = .nouveau ∧ req.category = st.category ∧
      req.quantity = st.quantity ∧ req.size = jsTrim st.size ∧
      req.color = jsTrim st.color ∧ req.fromUser = activeUser := by
  have hcond : ¬ (jsTrim st.size = "" ∨ jsTrim st.color = "") := by
    rintro (h | h)
    · exact h1 h
    · exact h2 h
  unfold handleSend
  rw [if_neg hcond]
  exact ⟨_, rfl, rfl, rfl, rfl, rfl, rfl, rfl, rfl⟩

/-- Claim C3 (witness): the spec's example — Alex submits
{T-shirt, L, 3, Noir} on an empty queue. -/
theorem handleSend_prepends_new_entry_witness :
    ∃ req : PRTRequest,
      (handleSend "Alex" "prt3c" "2026-01-05T10:00:00.000Z" stAlex ⟨[]⟩).1.requests =
        req :: stAlex.requests ∧
      (handleSend "Alex" "prt3c" "2026-01-05T10:00:00.000Z" stAlex ⟨[]⟩).2.prtRequests =
        req :: stAlex.requests ∧
      req.status = .nouveau ∧ req.category = stAlex.category ∧
      req.quantity = stAlex.quantity ∧ req.size = jsTrim stAlex.size ∧
      req.color = jsTrim stAlex.color ∧ req.fromUser = "Alex" :=
  handleSend_prepends_new_entry "Alex" "prt3c" "2026-01-05T10:00:00.000Z" stAlex ⟨[]⟩
    (by decide) (by decide)

/-- Claim C4 (counterexample): applying `markVu` to the id of an entry
whose status is `traite` (done) does not leave the queue unchanged — it
moves that entry backward, from rank 2 (`traite`) to rank 1 (`vu`). -/
theorem markVu_regresses_done_entry :
    markVu "prt1a" [rDoneEx] ≠ [rDoneEx] ∧
    (markVu "prt1a" [rDoneEx]).map (fun r => statusRank r.status) = [1] ∧
    statusRank rDoneEx.status = 2 :=
  ⟨by decide, by decide, rfl⟩

/-- Claim C4 (amended): `markTraite` never moves an entry backward, and on
a queue where every entry carrying the targeted id is already `traite` it
leaves the queue unchanged; `markVu` never moves an entry backward
provided no entry carrying the targeted id is `traite` — the guard the UI
enforces by rendering the "Vu" control only for `nouveau` entries. The
unguarded `markVu` applied to a done entry's id resets it to `vu`. -/
theorem advance_monotonic_guarded (id : String) (reqs : List PRTRequest) :
    List.Forall₂ (fun a b => statusRank a.status ≤ statusRank b.status)
      reqs (markTraite id reqs) ∧
    ((∀ r ∈ reqs, r.id = id → r.status ≠ .traite) →
      List.Forall₂ (fun a b => statusRank a.status ≤ statusRank b.status)
        reqs (markVu id reqs)) ∧
    ((∀ r ∈ reqs, r.id = id → r.status = .traite) → markTraite id reqs = reqs) := by
  refine ⟨?_, ?_, ?_⟩
  · induction reqs with
    | nil => exact List.Forall₂.nil
    | cons r rs ih =>
        refine List.Forall₂.cons ?_ ih
        by_cases h : r.id = id
        · simp only [h, if_pos rfl]
          cases hr : r.status <;> simp [statusRank]
        · simp [h]
  · intro hguard
    induction reqs with
    | nil => exact List.Forall₂.nil
    | cons r rs ih =>
        refine List.Forall₂.cons ?_ (ih fun x hx => hguard x (List.mem_cons_of_mem r hx))
        by_cases h : r.id = id
        · have hne := hguard r (List.mem_cons_self r rs) h
          simp only [h, if_pos rfl]
          cases hr : r.status
          · simp [statusRank]
          · simp [statusRank]
          · exact absurd hr hne
        · simp [h]
  · intro hall
    induction reqs with
    | nil => rfl
    | cons r rs ih =>
        have htail : markTraite id rs = rs :=
          ih fun x hx => hall x (List.mem_cons_of_mem r hx)
        have hstep : markTraite id (r :: rs) =
            (if r.id = id then { r with status := .traite } else r) :: markTraite id rs := rfl
        by_cases h : r.id = id
        · have hst := hall r (List.mem_cons_self r rs) h
          rw [hstep, if_pos h, setStatus_self r .traite hst, htail]
        · rw [hstep, if_neg h, htail]

/-- Claim C4 (witness): `markVu` on a fresh entry moves forward only, and
`markTraite` on an already-done entry leaves the queue unchanged. -/
theorem advance_monotonic_guarded_witness :
    List.Forall₂ (fun a b => statusRank a.status ≤ statusRank b.status)
      [rNewEx] (markVu "prt2b" [rNewEx]) ∧
    markTraite "prt1a" [rDoneEx] = [rDoneEx] :=
  ⟨(advance_monotonic_guarded "prt2b" [rNewEx]).2.1 (by decide),
   (advance_monotonic_guarded "prt1a" [rDoneEx]).2.2 (by decide)⟩

/-- Claim C5: `clearTraited` keeps no `traite` entry, keeps every
non-`traite` entry, removes every `traite` entry, and the kept entries
form a sublist of the original queue — their original relative order. -/
theorem clearTraited_removes_exactly_done (reqs : List PRTRequest) :
    (∀ r ∈ clearTraited reqs, r.status ≠ .traite) ∧
    (∀ r ∈ reqs, r.status ≠ .traite → r ∈ clearTraited reqs) ∧
    (∀ r ∈ reqs, r.status = .traite → r ∉ clearTraited reqs) ∧
    (clearTraited reqs).Sublist reqs := by
  refine ⟨?_, ?_, ?_, List.filter_sublist reqs⟩
  · intro r hr
    have := List.of_mem_filter hr
    simpa using this
  · intro r hr hst
    exact List.mem_filter.2 ⟨hr, by simpa using hst⟩
  · intro r _ hst hmem
    have := List.of_mem_filter hmem
    simp [hst] at this

/-- Claim C5 (witness): on the queue [fresh, done], the fresh entry is
kept and the done entry is removed. -/
theorem clearTraited_removes_exactly_done_witness :
    rNewEx ∈ clearTraited [rNewEx, rDoneEx] ∧
    rDoneEx ∉ clearTraited [rNewEx, rDoneEx] :=
  ⟨(clearTraited_removes_exactly_done [rNewEx, rDoneEx]).2.1 rNewEx (by decide) (by decide),
   (clearTraited_removes_exactly_done [rNewEx, rDoneEx]).2.2.1 rDoneEx (by decide) rfl⟩

/-- Claim C6: the delete control acts only when the acting user is the
privileged recipient (`isLoic`) or the exact submitter string of the
entry; a non-privileged, non-owning user's attempt leaves the queue
unchanged, while a permitted delete removes exactly the entries carrying
the target id and keeps every other entry, in their original order. -/
theorem clickDelete_permission (activeUser : String) (r : PRTRequest)
    (reqs : List PRTRequest) :
    (¬ (isLoic activeUser = true ∨ r.fromUser = activeUser) →
      clickDelete activeUser r reqs = reqs) ∧
    ((isLoic activeUser = true ∨ r.fromUser = activeUser) →
      (∀ x ∈ clickDelete activeUser r reqs, x.id ≠ r.id) ∧
      (∀ x ∈ reqs, x.id ≠ r.id → x ∈ clickDelete activeUser r reqs) ∧
      (clickDelete activeUser r reqs).Sublist reqs) := by
  have hiff : deleteAllowed activeUser r = true ↔
      (isLoic activeUser = true ∨ r.fromUser = activeUser) := by
    simp [deleteAllowed]
  constructor
  · intro hno
    have hfalse : deleteAllowed activeUser r = false := by
      cases hb : deleteAllowed activeUser r
      · rfl
      · exact absurd (hiff.1 hb) hno
    unfold clickDelete
    rw [hfalse]
    rfl
  · intro hyes
    have htrue : deleteAllowed activeUser r = true := hiff.2 hyes
    have hdel : clickDelete activeUser r reqs = deleteReq r.id reqs := by
      unfold clickDelete
      rw [htrue]
      rfl
    rw [hdel]
    refine ⟨?_, ?_, List.filter_sublist reqs⟩
    · intro x hx
      have := List.of_mem_filter hx
      simpa using this
    · intro x hx hne
      exact List.mem_filter.2 ⟨hx, by simpa using hne⟩

/-- Claim C6 (witness): Sam (neither privileged nor the submitter) cannot
delete Alex's entry — the queue is unchanged; Alex, the exact submitter,
deletes the own entry. -/
theorem clickDelete_permission_witness :
    clickDelete "Sam" rNewEx [rNewEx, rDoneEx] = [rNewEx, rDoneEx] ∧
    rNewEx ∉ clickDelete "Alex" rNewEx [rNewEx, rDoneEx] :=
  ⟨(clickDelete_permission "Sam" rNewEx [rNewEx, rDoneEx]).1 (by decide),
   fun hmem =>
     ((clickDelete_permission "Alex" rNewEx [rNewEx, rDoneEx]).2 (Or.inr rfl)).1
       rNewEx hmem rfl⟩

/-- Claim C8: two tabs both load the stored queue `q`; tab A submits an
entry with fresh id `idA` and persists, then tab B — whose in-memory copy
is still `q` — submits an entry with id `idB` and persists over it. The
final stored queue is B's entry prepended to `q`: it contains B's entry
and every original entry, but no entry with A's id (A's write is silently
discarded). -/
theorem lost_update_two_tabs (q : List PRTRequest) (stA stB : PanelState)
    (uA idA tA uB idB tB : String)
    (hA : stA.requests = q) (hB : stB.requests = q)
    (hAsz : jsTrim stA.size ≠ "") (hAco : jsTrim stA.color ≠ "")
    (hBsz : jsTrim stB.size ≠ "") (hBco : jsTrim stB.color ≠ "")
    (hid : idB ≠ idA) (hfresh : ∀ r ∈ q, r.id ≠ idA) :
    (∃ reqA, (handleSend uA idA tA stA ⟨q⟩).2.prtRequests = reqA :: q ∧
      reqA.id = idA) ∧
    (∃ reqB,
      (handleSend uB idB tB stB (handleSend uA idA tA stA ⟨q⟩).2).2.prtRequests =
        reqB :: q ∧
      reqB.id = idB ∧ reqB.status = .nouveau) ∧
    (∀ r ∈ (handleSend uB idB tB stB (handleSend uA idA tA stA ⟨q⟩).2).2.prtRequests,
      r.id ≠ idA) := by
  have hcondA : ¬ (jsTrim stA.size = "" ∨ jsTrim stA.color = "") := by
    rintro (h | h)
    · exact hAsz h
    · exact hAco h
  have hcondB : ¬ (jsTrim stB.size = "" ∨ jsTrim stB.color = "") := by
    rintro (h | h)
    · exact hBsz h
    · exact hBco h
  have hAi : (handleSend uA idA tA stA ⟨q⟩).2.prtRequests =
      { id := idA, category := stA.category, size := jsTrim stA.size,
        quantity := stA.quantity, color := jsTrim stA.color, fromUser := uA,
        createdAt := tA, status := .nouveau } :: q := by
    unfold handleSend
    rw [if_neg hcondA, hA]
  have hBi : ∀ s : Store,
      (handleSend uB idB tB stB s).2.prtRequests =
      { id := idB, category := stB.category, size := jsTrim stB.size,
        quantity := stB.quantity, color := jsTrim stB.color, fromUser := uB,
        createdAt := tB, status := .nouveau } :: q := by
    intro s
    unfold handleSend
    rw [if_neg hcondB, hB]
  refine ⟨⟨_, hAi, rfl⟩, ⟨_, hBi _, rfl, rfl⟩, ?_⟩
  intro r hr
  rw [hBi _] at hr
  rcases List.mem_cons.1 hr with h | h
  · rw [h]
    exact hid
  · exact hfresh r h

/-- Claim C8 (witness): the spec's two-tab example over a one-entry stored
queue — Alex's tab writes first, Loïc's stale tab overwrites, Alex's new
entry is gone from the final store. -/
theorem lost_update_two_tabs_witness :
    (∃ reqA,
      (handleSend "Alex" "prtX" "2026-01-06T09:00:00.000Z"
          { stAlex with requests := [rDoneEx] } ⟨[rDoneEx]⟩).2.prtRequests =
        reqA :: [rDoneEx] ∧ reqA.id = "prtX") ∧
    (∃ reqB,
      (handleSend "Marie" "prtY" "2026-01-06T09:00:05.000Z"
          { stAlex with requests := [rDoneEx], size := "M", color := "Rouge" }
          (handleSend "Alex" "prtX" "2026-01-06T09:00:00.000Z"
            { stAlex with requests := [rDoneEx] } ⟨[rDoneEx]⟩).2).2.prtRequests =
        reqB :: [rDoneEx] ∧ reqB.id = "prtY" ∧ reqB.status = .nouveau) ∧
    (∀ r ∈ (handleSend "Marie" "prtY" "2026-01-06T09:00:05.000Z"
          { stAlex with requests := [rDoneEx], size := "M", color := "Rouge" }
          (handleSend "Alex" "prtX" "2026-01-06T09:00:00.000Z"
            { stAlex with requests := [rDoneEx] } ⟨[rDoneEx]⟩).2).2.prtRequests,
      r.id ≠ "prtX") :=
  lost_update_two_tabs [rDoneEx]
    { stAlex with requests := [rDoneEx] }
    { stAlex with requests := [rDoneEx], size := "M", color := "Rouge" }
    "Alex" "prtX" "2026-01-06T09:00:00.000Z"
    "Marie" "prtY" "2026-01-06T09:00:05.000Z"
    rfl rfl (by decide) (by decide) (by decide) (by decide) (by decide) (by decide)

/-- Claim C9 (counterexample): typing `2.5` into the quantity input stores
`Math.max(1, 2.5) = 2.5`, and the submitted entry carries quantity `5/2`
— a value that is not an integer (its reduced denominator is 2, and it
equals no integer cast). -/
theorem submit_accepts_noninteger_quantity :
    quantityOnChange (some (5/2)) = 5/2 ∧
    (handleSend "Alex" "prt9" "2026-01-04T12:00:00.000Z" stHalf ⟨[]⟩).1.requests.map
      PRTRequest.quantity = [5/2] ∧
    ¬ ∃ n : ℤ, quantityOnChange (some (5/2)) = (n : ℚ) := by
  have h52 : quantityOnChange (some (5/2)) = (5 : ℚ)/2 := by
    unfold quantityOnChange jsNumberOfInput
    exact max_eq_right (by norm_num)
  refine ⟨h52, ?_, ?_⟩
  · have hcond : ¬ (jsTrim stHalf.size = "" ∨ jsTrim stHalf.color = "") := by decide
    have hlist : (handleSend "Alex" "prt9" "2026-01-04T12:00:00.000Z" stHalf ⟨[]⟩).1.requests
        = reqHalf :: stHalf.requests := by
      unfold handleSend
      rw [if_neg hcond]
      rfl
    rw [hlist]
    simp [stHalf, reqHalf, h52]
  · rintro ⟨n, hn⟩
    rw [h52, div_eq_iff (by norm_num : (2 : ℚ) ≠ 0)] at hn
    have hz : (5 : ℤ) = n * 2 := by exact_mod_cast hn
    omega

/-- Claim C9 (amended): the quantity handler clamps every input with
`Math.max(1, ·)`, so the stored quantity — and hence the quantity of every
entry a submit adds to the queue — is at least 1; it need not be an
integer. -/
theorem quantity_at_least_one (v : Option ℚ) (activeUser freshId now : String)
    (st : PanelState) (store : Store)
    (h1 : jsTrim st.size ≠ "") (h2 : jsTrim st.color ≠ "")
    (hq : st.quantity = quantityOnChange v) :
    1 ≤ quantityOnChange v ∧
    ∀ req ∈ (handleSend activeUser freshId now st store).1.requests,
      req ∈ st.requests ∨ 1 ≤ req.quantity := by
  have hcond : ¬ (jsTrim st.size = "" ∨ jsTrim st.color = "") := by
    rintro (h | h)
    · exact h1 h
    · exact h2 h
  have hmax : 1 ≤ quantityOnChange v := le_max_left 1 (jsNumberOfInput v)
  refine ⟨hmax, ?_⟩
  intro req hreq
  have hlist : (handleSend activeUser freshId now st store).1.requests =
      { id := freshId, category := st.category, size := jsTrim st.size,
        quantity := st.quantity, color := jsTrim st.color,
        fromUser := activeUser, createdAt := now, status := .nouveau } :: st.requests := by
    unfold handleSend
    rw [if_neg hcond]
  rw [hlist] at hreq
  rcases List.mem_cons.1 hreq with h | h
  · right
    rw [h]
    simpa [hq] using hmax
  · exact Or.inl h

/-- Claim C9 (witness): the clamp holds for the `2.5` input, and the entry
it produces on an empty queue has quantity at least 1. -/
theorem quantity_at_least_one_witness :
    1 ≤ quantityOnChange (some (5/2)) ∧
    (reqHalf ∈ stHalf.requests ∨ 1 ≤ reqHalf.quantity) := by
  have h := quantity_at_least_one (some (5/2)) "Alex" "prt9" "2026-01-04T12:00:00.000Z"
    stHalf ⟨[]⟩ (by decide) (by decide) rfl
  refine ⟨h.1, h.2 reqHalf ?_⟩
  have hcond : ¬ (jsTrim stHalf.size = "" ∨ jsTrim stHalf.color = "") := by decide
  have hlist : (handleSend "Alex" "prt9" "2026-01-04T12:00:00.000Z" stHalf ⟨[]⟩).1.requests
      = reqHalf :: stHalf.requests := by
    unfold handleSend
    rw [if_neg hcond]
    rfl
  rw [hlist]
  exact List.mem_cons_self reqHalf stHalf.requests

/-- Claim C10: adding a todo whose text trims to empty leaves both the
component list and the stored list untouched; any other text appends
exactly one todo at the end — trimmed text, `done = false` — with every
existing todo preserved, and the stored list mirrors the new list. -/
theorem addTodo_spec (freshId text : String) (st : TodoState) :
    (jsTrim text = "" → addTodo freshId text st = st) ∧
    (jsTrim text ≠ "" →
      ∃ t : CardTodo,
        (addTodo freshId text st).todos = st.todos ++ [t] ∧
        (addTodo freshId text st).stored = st.todos ++ [t] ∧
        t.text = jsTrim text ∧ t.done = false) := by
  constructor
  · intro h
    unfold addTodo
    exact if_pos h
  · intro h
    have hstep : addTodo freshId text st =
        save (st.todos ++ [{ id := freshId, text := jsTrim text, done := false }]) st := by
      unfold addTodo
      exact if_neg h
    exact ⟨_, by rw [hstep]; rfl, by rw [hstep]; rfl, rfl, rfl⟩

/-- Claim C10 (witness): whitespace-only text is a no-op on the empty
state; a padded text is appended trimmed and not done. -/
theorem addTodo_spec_witness :
    addTodo "t1" "   " ⟨[], []⟩ = ⟨[], []⟩ ∧
    ∃ t : CardTodo,
      (addTodo "t2" " relancer client " (⟨[], []⟩ : TodoState)).todos =
        (⟨[], []⟩ : TodoState).todos ++ [t] ∧
      (addTodo "t2" " relancer client " (⟨[], []⟩ : TodoState)).stored =
        (⟨[], []⟩ : TodoState).todos ++ [t] ∧
      t.text = jsTrim " relancer client " ∧ t.done = false :=
  ⟨(addTodo_spec "t1" "   " ⟨[], []⟩).1 (by decide),
   (addTodo_spec "t2" " relancer client " ⟨[], []⟩).2 (by decide)⟩

end Dashboard
